import Mathlib

/-!
Shallow embedding of `news/signals.py`: Django signal handlers for user
registration, author provisioning, post notifications, activation tokens,
subscriptions and cache invalidation.  Side effects (emails, group grants,
cache deletions, log lines) are made explicit as values; the persistence
layer's `transaction.on_commit` is modelled by a pending-action list on a
transaction value; a Python exception that escapes a handler is an
`Except.error`, and a `try`/`except` block is a `match` on the body's result.
-/

namespace Signals

/-! ## Data model -/

/-- Post.post_type values (`Post.NEWS` / `Post.ARTICLE`). -/
inductive PostType
  | news
  | article
deriving DecidableEq, Repr

/-- A `Post` row as the handlers see it: primary key, title, type. -/
structure Post where
  pk : Nat
  title : String
  post_type : PostType
deriving DecidableEq, Repr

/-- An `ActivationToken` row: `activated` flag and creation time.
`created_at` is measured in whole days on an integer timeline. -/
structure ActivationToken where
  activated : Bool
  created_at : Int
deriving DecidableEq, Repr

/-! ## Retention sweep (`cleanup_expired_tokens`, signals.py lines 234-250)

The Django queryset filter `activated=False, created_at__lt=now - 7 days`
selects the tokens to delete.  The Python function logs the count but has no
`return` statement, so its value is `None`; the `except` branch also logs and
falls off the end.  The result pairs the surviving token list with the
function's returned value. -/

/-- The queryset predicate: `activated=False AND created_at < now - 7 days`. -/
def tokenExpired (now : Int) (t : ActivationToken) : Bool :=
  !t.activated && decide (t.created_at < now - 7)

/-- `cleanup_expired_tokens`.  `dbFails` models the persistence layer raising
inside the `try` block; in that case nothing is deleted, the error is logged,
and the function still returns `None`. -/
def cleanup_expired_tokens (dbFails : Bool) (now : Int)
    (tokens : List ActivationToken) : List ActivationToken × Option Nat :=
  if dbFails then
    (tokens, none)
  else
    let expired := tokens.filter (tokenExpired now)
    let count := expired.length
    if count > 0 then
      (tokens.filter (fun t => !(tokenExpired now t)), none)
    else
      (tokens, none)

/-! ## Subscription cache invalidation (signals.py lines 195-217) -/

/-- The cache-key template `user_{id}_subscriptions`. -/
def userSubscriptionsKey (userId : Nat) : String :=
  "user_" ++ toString userId ++ "_subscriptions"

/-- The cache-key template `category_{id}_subscribers_count`. -/
def categorySubscribersCountKey (catId : Nat) : String :=
  "category_" ++ toString catId ++ "_subscribers_count"

/-- `handle_new_subscription`: on `post_save` with `created=True`, delete the
two subscription cache keys; otherwise do nothing.  The result is the list of
cache keys deleted, in order. -/
def handle_new_subscription (created : Bool) (userId catId : Nat) :
    List String :=
  if created then
    ["user_" ++ toString userId ++ "_subscriptions",
     "category_" ++ toString catId ++ "_subscribers_count"]
  else []

/-- `handle_subscription_removed`: on `post_delete`, unconditionally delete
the same two cache keys. -/
def handle_subscription_removed (userId catId : Nat) : List String :=
  ["user_" ++ toString userId ++ "_subscriptions",
   "category_" ++ toString catId ++ "_subscribers_count"]

/-! ## Transaction model and post handlers (signals.py lines 105-142)

`transaction.on_commit(cb)` appends a callback to the active transaction's
pending list.  On commit the persistence layer runs each pending callback
once, in registration order; on rollback it discards them all. -/

/-- The one kind of callback these handlers register:
`lambda: process_post_notifications(inst)` for the post with this pk. -/
inductive DeferredAction
  | notifyPost (pk : Nat)
deriving DecidableEq, Repr

/-- The active transaction: its list of pending on-commit callbacks. -/
structure Txn where
  pending : List DeferredAction
deriving DecidableEq, Repr

/-- `transaction.on_commit`: register a callback on the active transaction. -/
def on_commit (a : DeferredAction) (t : Txn) : Txn :=
  { pending := t.pending ++ [a] }

/-- The actions the persistence layer runs when the transaction commits:
each pending callback, once, in order. -/
def commitRuns (t : Txn) : List DeferredAction :=
  t.pending

/-- The actions run when the transaction aborts: none. -/
def rollbackRuns (_t : Txn) : List DeferredAction :=
  []

/-- `handle_post_save` for `Post`: on `created=True`, (a) if the post already
has categories (`instance.categories.exists()`), register the notification
callback via `on_commit`, and (b) delete the four post-list cache keys.
Returns the transaction and the cache keys deleted. -/
def handle_post_save (pk : Nat) (created hasCategories : Bool) (t : Txn) :
    Txn × List String :=
  if created then
    (if created && hasCategories then on_commit (DeferredAction.notifyPost pk) t
     else t,
     ["latest_news", "news_list", "post_" ++ toString pk, "categories_list"])
  else (t, [])

/-- `handle_post_categories_changed` (`m2m_changed` on `Post.categories`):
on `action == "post_add"`, register the notification callback via
`on_commit`. -/
def handle_post_categories_changed (pk : Nat) (action : String) (t : Txn) :
    Txn :=
  if action == "post_add" then on_commit (DeferredAction.notifyPost pk) t
  else t

/-! ## Deferred notification action (`process_post_notifications`,
signals.py lines 145-168) -/

/-- `Post.objects.get(pk=...)`: identity-based re-fetch from the database,
modelled as the post list at the time the deferred action runs.
`Post.DoesNotExist` is the `none` result. -/
def fetchPost (db : List Post) (pk : Nat) : Option Post :=
  db.find? (fun p => p.pk == pk)

/-- Observable outcomes of the deferred action. -/
inductive NotifEffect
  | newsToSubscribers (pk : Nat)
  | articleImmediate (pk : Nat)
  | logNotFound (pk : Nat)
  | logCritical
deriving DecidableEq, Repr

/-- The dispatch inside the `try` block once the re-fetch succeeded:
NEWS posts call `refreshed_post.send_notifications_to_subscribers()`,
ARTICLE posts call `EmailService.send_immediate_article_notification`.
`sendFails` models the selected delivery collaborator raising. -/
def notifySend (refreshed : Post) (sendFails : Bool) :
    Except String (List NotifEffect) :=
  if sendFails then Except.error "send failure"
  else
    match refreshed.post_type with
    | PostType.news => Except.ok [NotifEffect.newsToSubscribers refreshed.pk]
    | PostType.article => Except.ok [NotifEffect.articleImmediate refreshed.pk]

/-- `process_post_notifications(post)`: re-fetch the post by `post.pk`, then
dispatch by the re-fetched post's type.  `except Post.DoesNotExist` logs the
missing pk; `except Exception` logs a critical error.  Nothing escapes. -/
def process_post_notifications (db : List Post) (sendFails : Bool)
    (post : Post) : List NotifEffect :=
  match fetchPost db post.pk with
  | none => [NotifEffect.logNotFound post.pk]
  | some refreshed =>
    match notifySend refreshed sendFails with
    | Except.ok effs => effs
    | Except.error _ => [NotifEffect.logCritical]

/-! ## Activation-token save handler (`handle_activation_token_save`,
signals.py lines 172-191)

State observed and produced by the handler: whether the token's user is in
the `authors` group, and counters for success emails sent, group-add calls
performed, and errors logged. -/

/-- The user/effect state threaded through activation-token saves. -/
structure ActState where
  inAuthors : Bool
  emails : Nat
  grants : Nat
  errorsLogged : Nat
deriving DecidableEq, Repr

/-- The body of the handler's `try` block (runs only when the guard
`instance.activated and not created` passed): send the success email, then
add the user to `authors` unless already a member.  `emailFails` models
`EmailService.send_activation_success_email` raising, which aborts the rest
of the block. -/
def token_save_body (emailFails : Bool) (s : ActState) :
    Except String ActState :=
  if emailFails then Except.error "email failure"
  else
    Except.ok { s with
      emails := s.emails + 1,
      grants := if s.inAuthors then s.grants else s.grants + 1,
      inAuthors := true }

/-- `handle_activation_token_save`: guard `instance.activated and not
created`; the `try` body's exception is caught and logged. -/
def handle_activation_token_save (emailFails activated created : Bool)
    (s : ActState) : ActState :=
  if activated && !created then
    match token_save_body emailFails s with
    | Except.ok s2 => s2
    | Except.error _ => { s with errorsLogged := s.errorsLogged + 1 }
  else s

/-- A sequence of `post_save` events on one token: each event carries the
`activated` value at save time and the `created` flag.  Collaborators
succeed (`emailFails := false`). -/
def runTokenSaves (s : ActState) (saves : List (Bool × Bool)) : ActState :=
  saves.foldl (fun st e => handle_activation_token_save false e.1 e.2 st) s

/-! ## Social signup (`handle_social_signup`, signals.py lines 50-61)

`ActivationToken.objects.get_or_create(user=user)`, set `activated = True`,
`save()`.  The explicit `save()` is an UPDATE, so the `post_save` signal for
`ActivationToken` fires synchronously with `created=False` and
`activated=True`, running `handle_activation_token_save` before
`handle_social_signup` returns.  There is no `try`/`except` here: a
persistence failure propagates out of the handler. -/

/-- Result of a successful social signup. -/
structure SocialResult where
  tokenActivated : Bool
  afterSave : ActState
deriving DecidableEq, Repr

/-- `handle_social_signup`.  `saveFails` models the token get-or-create or
save raising; the exception is not caught. -/
def handle_social_signup (saveFails : Bool) (s : ActState) :
    Except String SocialResult :=
  if saveFails then Except.error "database failure"
  else
    Except.ok { tokenActivated := true,
                afterSave := handle_activation_token_save false true false s }

/-! ## User registration and author provisioning (signals.py lines 20-89)

State per user: how many `Author` rows reference the user (the 1:1 invariant
is `authorCount <= 1`) and whether the user is in the `common` group. -/

/-- Per-user provisioning state. -/
structure UserState where
  authorCount : Nat
  inCommon : Bool
deriving DecidableEq, Repr

/-- The body of `handle_user_signed_up`'s `try` block: add the user to
`common`, `Author.objects.get_or_create(user=user)`, create the activation
token, send the welcome email.  `groupFails` models the group store raising
before anything happened; `emailFails` models the welcome-email send raising
after the writes landed.  The second component is the exception, if one was
raised. -/
def user_signed_up_body (groupFails emailFails : Bool) (s : UserState) :
    UserState × Option String :=
  if groupFails then (s, some "group store failure")
  else
    let s1 : UserState :=
      { authorCount := if s.authorCount == 0 then 1 else s.authorCount,
        inCommon := true }
    if emailFails then (s1, some "email failure")
    else (s1, none)

/-- `handle_user_signed_up`: the whole body sits in `try`/`except`, so any
exception is caught and logged.  The Bool records whether an error was
logged; the handler itself never raises, hence always `Except.ok`. -/
def handle_user_signed_up (groupFails emailFails : Bool) (s : UserState) :
    Except String (UserState × Bool) :=
  match user_signed_up_body groupFails emailFails s with
  | (s2, some _) => Except.ok (s2, true)
  | (s2, none) => Except.ok (s2, false)

/-- `handle_user_post_save` (backup `post_save` handler on `User`): if the
user was just created, is not staff, and is not yet in `common`, add them to
`common` and `Author.objects.get_or_create(user=instance)`. -/
def handle_user_post_save (created isStaff : Bool) (s : UserState) :
    UserState :=
  if created && !isStaff then
    if !s.inCommon then
      { authorCount := if s.authorCount == 0 then 1 else s.authorCount,
        inCommon := true }
    else s
  else s

/-- `create_author_profile` (second `post_save` handler on `User`): if the
user was just created and `hasattr(instance, 'author')` is false — no
`Author` row references the user — `Author.objects.create(user=instance)`
adds one unconditionally. -/
def create_author_profile (created : Bool) (s : UserState) : UserState :=
  if created && s.authorCount == 0 then
    { s with authorCount := s.authorCount + 1 }
  else s

/-- Any of the three author-provisioning handlers firing once for the user,
with its guard inputs. -/
inductive UserEvent
  | signedUp (groupFails emailFails : Bool)
  | postSaveBackup (created isStaff : Bool)
  | profileCreate (created : Bool)
deriving DecidableEq, Repr

/-- Run one provisioning handler on the per-user state. -/
def applyUserEvent (s : UserState) (e : UserEvent) : UserState :=
  match e with
  | UserEvent.signedUp g f =>
    match handle_user_signed_up g f s with
    | Except.ok (s2, _) => s2
    | Except.error _ => s
  | UserEvent.postSaveBackup c st => handle_user_post_save c st s
  | UserEvent.profileCreate c => create_author_profile c s

/-- Run a sequence of provisioning handlers. -/
def runUserEvents (s : UserState) (es : List UserEvent) : UserState :=
  es.foldl applyUserEvent s

/-! ## Helper lemmas -/

/-- The two subscription cache-key templates can never collide: one starts
with `user_`, the other with `category_`. -/
lemma subscriptionKeys_distinct (u c : Nat) :
    userSubscriptionsKey u ≠ categorySubscribersCountKey c := by
  intro h
  have h2 := congrArg String.data h
  rw [userSubscriptionsKey, categorySubscribersCountKey, String.data_append,
    String.data_append, String.data_append, String.data_append] at h2
  have hu : "user_".data = 'u' :: "ser_".data := rfl
  have hc : "category_".data = 'c' :: "ategory_".data := rfl
  rw [hu, hc, List.cons_append, List.cons_append, List.cons_append,
    List.cons_append] at h2
  simp at h2

/-- On the non-failing path the retention sweep keeps exactly the tokens the
queryset filter does not select, and returns `None`. -/
lemma cleanup_no_fail (now : Int) (ts : List ActivationToken) :
    cleanup_expired_tokens false now ts
      = (ts.filter (fun t => !(tokenExpired now t)), none) := by
  by_cases h : (ts.filter (tokenExpired now)).length > 0
  · simp [cleanup_expired_tokens, h]
  · have hnil : ts.filter (tokenExpired now) = [] := by
      cases hf : ts.filter (tokenExpired now) with
      | nil => rfl
      | cons a l => exact absurd (by rw [hf]; simp) h
    have hkeep : ts.filter (fun t => !(tokenExpired now t)) = ts := by
      apply List.filter_eq_self.mpr
      intro a ha
      have : a ∉ ts.filter (tokenExpired now) := by rw [hnil]; simp
      simp only [List.mem_filter, not_and] at this
      simpa using this ha
    simp [cleanup_expired_tokens, h, hkeep]

/-- Folding the activation-token save handler over a save sequence: the
number of success emails grows by one for every save with `activated=True`
and `created=False`, and the number of `authors` group-add calls grows by at
most one (zero if the user already was a member). -/
lemma tokenSaves_fold (saves : List (Bool × Bool)) : ∀ s : ActState,
    (runTokenSaves s saves).emails
        = s.emails + saves.countP (fun e => e.1 && !e.2) ∧
      (runTokenSaves s saves).grants
        ≤ s.grants + (if s.inAuthors then 0 else 1) := by
  induction saves with
  | nil =>
    intro s
    refine ⟨by simp [runTokenSaves], ?_⟩
    have : runTokenSaves s [] = s := rfl
    rw [this]
    cases h : s.inAuthors <;> simp
  | cons e rest ih =>
    intro s
    have hrun : runTokenSaves s (e :: rest)
        = runTokenSaves (handle_activation_token_save false e.1 e.2 s) rest :=
      rfl
    by_cases hg : (e.1 && !e.2) = true
    · have hs1 : handle_activation_token_save false e.1 e.2 s
          = { s with
              emails := s.emails + 1,
              grants := if s.inAuthors then s.grants else s.grants + 1,
              inAuthors := true } := by
        simp [handle_activation_token_save, token_save_body, hg]
      obtain ⟨ih1, ih2⟩ := ih (handle_activation_token_save false e.1 e.2 s)
      constructor
      · rw [hrun, ih1, hs1]
        simp [List.countP_cons, hg]
        omega
      · rw [hrun]
        refine le_trans ih2 ?_
        rw [hs1]
        cases h : s.inAuthors <;> simp [h]
    · have hs1 : handle_activation_token_save false e.1 e.2 s = s := by
        simp [handle_activation_token_save, hg]
      obtain ⟨ih1, ih2⟩ := ih (handle_activation_token_save false e.1 e.2 s)
      rw [hs1] at ih1 ih2
      refine ⟨?_, by rw [hrun, hs1]; exact ih2⟩
      rw [hrun, hs1, ih1]
      simp [List.countP_cons, hg]

/-! ## Claim theorems -/

/-- Claim C1, counterexample.  The guard is `instance.activated and not
created`, not an edge detector: starting from a fresh state, the activating
save sends one success email, and re-saving the already-activated token
sends a second one — the claim's "zero additional notifications" on re-save
is false.  (The grant really is idempotent: still one group-add call.) -/
theorem c1_counterexample :
    (runTokenSaves ⟨false, 0, 0, 0⟩ [(true, false)]).emails = 1 ∧
      (runTokenSaves ⟨false, 0, 0, 0⟩ [(true, false), (true, false)]).emails
        = 2 ∧
      (runTokenSaves ⟨false, 0, 0, 0⟩ [(true, false), (true, false)]).grants
        = 1 := by
  decide

/-- Claim C1, amended.  The handler fires on every save of an existing
token whose `activated` flag is true, not only on the false→true edge: over
any save sequence the number of success emails equals the number of saves
with `activated=True` and `created=False` (so a re-save of an activated
token sends one more email), while the `authors` grant stays idempotent —
at most one group-add call ever happens beyond an already-member state. -/
theorem c1_amended : ∀ (saves : List (Bool × Bool)) (s : ActState),
    (runTokenSaves s saves).emails
        = s.emails + saves.countP (fun e => e.1 && !e.2) ∧
      (runTokenSaves s saves).grants
        ≤ s.grants + (if s.inAuthors then 0 else 1) :=
  fun saves s => tokenSaves_fold saves s

/-- Claim C6, counterexample.  On the four-token scenario (ages 3, 8, 10,
10 days at `now = 10`, the last one activated) the sweep deletes the two
unactivated tokens older than 7 days — but the function's returned value is
`none` (Python `None`), not the count `2`: `cleanup_expired_tokens` has no
`return` statement, so the "returns the count of deleted tokens" part of the
claim is false. -/
theorem c6_counterexample :
    (cleanup_expired_tokens false 10
        [⟨false, 7⟩, ⟨false, 2⟩, ⟨false, 0⟩, ⟨true, 0⟩]).1
        = [⟨false, 7⟩, ⟨true, 0⟩] ∧
      (cleanup_expired_tokens false 10
        [⟨false, 7⟩, ⟨false, 2⟩, ⟨false, 0⟩, ⟨true, 0⟩]).2
        ≠ some 2 := by
  decide

/-- Claim C6, amended.  The retention sweep deletes exactly the
ActivationTokens that are both unactivated and created more than 7 days ago
(on the four-token scenario only the two unactivated tokens older than 7
days are deleted), logs the count but returns `None` rather than the count,
and on failure deletes nothing and does not raise. -/
theorem c6_amended :
    (∀ (now : Int) (ts : List ActivationToken),
        cleanup_expired_tokens false now ts
          = (ts.filter (fun t => !(tokenExpired now t)), none)) ∧
      (∀ (now : Int) (t : ActivationToken),
        tokenExpired now t = true ↔
          (t.activated = false ∧ t.created_at < now - 7)) ∧
      (∀ (now : Int) (ts : List ActivationToken) (t : ActivationToken),
        t ∈ (cleanup_expired_tokens false now ts).1 ↔
          (t ∈ ts ∧ tokenExpired now t = false)) ∧
      (∀ (now : Int) (ts : List ActivationToken),
        cleanup_expired_tokens true now ts = (ts, none)) ∧
      cleanup_expired_tokens false 10
          [⟨false, 7⟩, ⟨false, 2⟩, ⟨false, 0⟩, ⟨true, 0⟩]
        = ([⟨false, 7⟩, ⟨true, 0⟩], none) := by
  refine ⟨cleanup_no_fail, ?_, ?_, fun now ts => rfl, by decide⟩
  · intro now t
    simp [tokenExpired]
  · intro now ts t
    rw [cleanup_no_fail]
    simp [List.mem_filter]

/-- Claim C7: every Subscription creation (`created=True`) and every
Subscription deletion deletes exactly the two cache keys
`user_{id}_subscriptions` and `category_{id}_subscribers_count`, each
exactly once per event, whatever the ids. -/
theorem c7_theorem : ∀ u c : Nat,
    handle_new_subscription true u c
        = [userSubscriptionsKey u, categorySubscribersCountKey c] ∧
      handle_subscription_removed u c
        = [userSubscriptionsKey u, categorySubscribersCountKey c] ∧
      (handle_new_subscription true u c).count (userSubscriptionsKey u) = 1 ∧
      (handle_new_subscription true u c).count
        (categorySubscribersCountKey c) = 1 ∧
      (handle_subscription_removed u c).count (userSubscriptionsKey u) = 1 ∧
      (handle_subscription_removed u c).count
        (categorySubscribersCountKey c) = 1 := by
  intro u c
  have hne := subscriptionKeys_distinct u c
  refine ⟨rfl, rfl, ?_, ?_, ?_, ?_⟩ <;>
    simp [handle_new_subscription, handle_subscription_removed,
      userSubscriptionsKey, categorySubscribersCountKey, List.count_cons,
      List.count_nil, beq_iff_eq] <;>
    simp only [userSubscriptionsKey, categorySubscribersCountKey] at hne <;>
    simp [hne, Ne.symm hne]

/-- Claim C2: when the guard holds (post created with categories present,
or `post_add` on the categories relation), the handler registers exactly one
deferred action on the current transaction; on commit that action runs
exactly once (its occurrence count in the commit run list rises by exactly
one), and on rollback no pending action runs at all. -/
theorem c2_theorem : ∀ (pk : Nat) (t : Txn),
    (handle_post_save pk true true t).1.pending
        = t.pending ++ [DeferredAction.notifyPost pk] ∧
      (handle_post_categories_changed pk "post_add" t).pending
        = t.pending ++ [DeferredAction.notifyPost pk] ∧
      (commitRuns (handle_post_save pk true true t).1).count
          (DeferredAction.notifyPost pk)
        = t.pending.count (DeferredAction.notifyPost pk) + 1 ∧
      (commitRuns (handle_post_categories_changed pk "post_add" t)).count
          (DeferredAction.notifyPost pk)
        = t.pending.count (DeferredAction.notifyPost pk) + 1 ∧
      rollbackRuns (handle_post_save pk true true t).1 = [] ∧
      rollbackRuns (handle_post_categories_changed pk "post_add" t) = [] := by
  intro pk t
  refine ⟨rfl, rfl, ?_, ?_, rfl, rfl⟩ <;>
    simp [commitRuns, handle_post_save, handle_post_categories_changed,
      on_commit, List.count_append, List.count_cons, List.count_nil]

/-- Claim C4, counterexample.  There is no per-transaction deduplication: if
a post is created while its category set is already non-empty and a
`post_add` event then fires for the same post in the same transaction, the
notification callback is registered twice, so after commit
`process_post_notifications` runs twice — not "exactly once" as claimed. -/
theorem c4_counterexample :
    (handle_post_categories_changed 5 "post_add"
        (handle_post_save 5 true true { pending := [] }).1).pending
        = [DeferredAction.notifyPost 5, DeferredAction.notifyPost 5] ∧
      (commitRuns (handle_post_categories_changed 5 "post_add"
          (handle_post_save 5 true true { pending := [] }).1)).count
        (DeferredAction.notifyPost 5) = 2 := by
  decide

/-- Claim C4, amended.  Each guard-passing event registers exactly one
deferred action, with no per-transaction deduplication: if both triggering
events fire for the same post in one transaction the dispatch is scheduled
twice, while in the ordinary flow (post created with an empty category set,
then one `post_add`) it is scheduled exactly once. -/
theorem c4_amended : ∀ (pk : Nat) (t : Txn),
    (commitRuns (handle_post_categories_changed pk "post_add"
          (handle_post_save pk true true t).1)).count
        (DeferredAction.notifyPost pk)
        = (commitRuns t).count (DeferredAction.notifyPost pk) + 2 ∧
      (commitRuns (handle_post_categories_changed pk "post_add"
          (handle_post_save pk true false t).1)).count
        (DeferredAction.notifyPost pk)
        = (commitRuns t).count (DeferredAction.notifyPost pk) + 1 := by
  intro pk t
  constructor <;>
    simp [commitRuns, handle_post_save, handle_post_categories_changed,
      on_commit, List.count_append, List.count_cons, List.count_nil]

/-- Claim C5: the deferred notification action re-fetches the post by its
primary key — its behaviour depends only on `post.pk` and the database, not
on the rest of the in-memory instance — and dispatches on the re-fetched
post's type: NEWS goes through the subscriber-notification path, ARTICLE
through the immediate-article path, and those two effects are distinct. -/
theorem c5_theorem :
    (∀ (db : List Post) (f : Bool) (p q : Post), p.pk = q.pk →
        process_post_notifications db f p
          = process_post_notifications db f q) ∧
      (∀ (db : List Post) (p r : Post), fetchPost db p.pk = some r →
        process_post_notifications db false p
          = match r.post_type with
            | PostType.news => [NotifEffect.newsToSubscribers r.pk]
            | PostType.article => [NotifEffect.articleImmediate r.pk]) ∧
      (∀ k : Nat,
        NotifEffect.newsToSubscribers k ≠ NotifEffect.articleImmediate k) := by
  refine ⟨?_, ?_, ?_⟩
  · intro db f p q h
    unfold process_post_notifications
    rw [h]
  · intro db p r h
    unfold process_post_notifications
    rw [h]
    cases hr : r.post_type <;> simp [notifySend, hr]
  · intro k h
    cases h

/-- Claim C5, witness: a database holding the NEWS post with pk 1, and a
stale in-memory instance for pk 1 that still says ARTICLE — the action
follows the re-fetched NEWS row, not the stale instance. -/
theorem c5_witness :
    process_post_notifications [⟨1, "n", PostType.news⟩] false
        ⟨1, "stale", PostType.article⟩
        = process_post_notifications [⟨1, "n", PostType.news⟩] false
          ⟨1, "n", PostType.news⟩ ∧
      process_post_notifications [⟨1, "n", PostType.news⟩] false
        ⟨1, "stale", PostType.article⟩
        = [NotifEffect.newsToSubscribers 1] :=
  ⟨c5_theorem.1 [⟨1, "n", PostType.news⟩] false ⟨1, "stale", PostType.article⟩
      ⟨1, "n", PostType.news⟩ rfl,
    c5_theorem.2.1 [⟨1, "n", PostType.news⟩] ⟨1, "stale", PostType.article⟩
      ⟨1, "n", PostType.news⟩ rfl⟩

/-- Claim C8: if the referenced post no longer exists when the deferred
action runs, the action only logs the missing primary key — no notification
effect is produced and nothing escapes (the result is the log entry alone,
whether or not the delivery collaborator would have failed). -/
theorem c8_theorem : ∀ (db : List Post) (f : Bool) (p : Post),
    fetchPost db p.pk = none →
    process_post_notifications db f p = [NotifEffect.logNotFound p.pk] := by
  intro db f p h
  unfold process_post_notifications
  rw [h]

/-- Claim C8, witness: the deferred action for pk 5 runs against an empty
database and produces only the not-found log entry. -/
theorem c8_witness :
    fetchPost [] (Post.pk ⟨5, "gone", PostType.news⟩) = none ∧
      process_post_notifications [] true ⟨5, "gone", PostType.news⟩
        = [NotifEffect.logNotFound 5] :=
  ⟨rfl, c8_theorem [] true ⟨5, "gone", PostType.news⟩ rfl⟩

/-- Claim C3, counterexample.  `handle_social_signup` has no `try`/`except`:
a persistence failure while creating or saving the activation token
propagates out of the handler, so "every signal handler ... catches" is
false. -/
theorem c3_counterexample :
    handle_social_signup true ⟨false, 0, 0, 0⟩
      = Except.error "database failure" := rfl

/-- Claim C3, amended.  The handlers that wrap their work in `try`/`except`
swallow collaborator failures and log them: `handle_user_signed_up` always
returns normally and records an error log when its body raised;
`handle_activation_token_save` turns an email-send failure into a logged
error with no email and no grant; the deferred action
`process_post_notifications` turns a delivery failure into a critical log
entry; the retention sweep on failure deletes nothing and returns normally.
But `handle_social_signup` has no exception handling, so a persistence
failure there propagates past the handler. -/
theorem c3_amended :
    (∀ (g f : Bool) (s : UserState),
        (handle_user_signed_up g f s).isOk = true) ∧
      (∀ (g f : Bool) (s : UserState), (g || f) = true →
        handle_user_signed_up g f s
          = Except.ok ((user_signed_up_body g f s).1, true)) ∧
      (∀ s : ActState,
        handle_activation_token_save true true false s
          = { s with errorsLogged := s.errorsLogged + 1 }) ∧
      (∀ (db : List Post) (p r : Post), fetchPost db p.pk = some r →
        process_post_notifications db true p = [NotifEffect.logCritical]) ∧
      (∀ (now : Int) (ts : List ActivationToken),
        cleanup_expired_tokens true now ts = (ts, none)) ∧
      (∀ s : ActState, handle_social_signup true s
        = Except.error "database failure") := by
  refine ⟨?_, ?_, fun s => rfl, ?_, fun now ts => rfl, fun s => rfl⟩
  · intro g f s
    cases g <;> cases f <;>
      simp [handle_user_signed_up, user_signed_up_body, Except.isOk,
        Except.toBool]
  · intro g f s h
    cases g <;> cases f <;>
      simp_all [handle_user_signed_up, user_signed_up_body]
  · intro db p r h
    unfold process_post_notifications
    rw [h]
    simp [notifySend]

/-- Claim C3, amended, witness: a group-store failure during
`handle_user_signed_up` is caught and logged, and a delivery failure inside
the deferred action for an existing post yields only the critical log
entry. -/
theorem c3_amended_witness :
    (handle_user_signed_up true false ⟨0, false⟩).isOk = true ∧
      handle_user_signed_up true false ⟨0, false⟩
        = Except.ok ((user_signed_up_body true false ⟨0, false⟩).1, true) ∧
      process_post_notifications [⟨1, "t", PostType.news⟩] true
        ⟨1, "t", PostType.news⟩ = [NotifEffect.logCritical] :=
  ⟨c3_amended.1 true false ⟨0, false⟩,
    c3_amended.2.1 true false ⟨0, false⟩ (by decide),
    c3_amended.2.2.2.1 [⟨1, "t", PostType.news⟩] ⟨1, "t", PostType.news⟩
      ⟨1, "t", PostType.news⟩ rfl⟩

/-- One step of any author-provisioning handler preserves the 1:1 bound:
each guards author creation with `get_or_create` or an existence check. -/
lemma applyUserEvent_authorCount_le (s : UserState) (e : UserEvent)
    (h : s.authorCount ≤ 1) : (applyUserEvent s e).authorCount ≤ 1 := by
  cases e with
  | signedUp g f =>
    have hb : (applyUserEvent s (UserEvent.signedUp g f)).authorCount
        = if g = true then s.authorCount
          else if s.authorCount == 0 then 1 else s.authorCount := by
      cases g <;> cases f <;> rfl
    rw [hb]
    by_cases hg : g = true
    · rw [if_pos hg]; exact h
    · rw [if_neg hg]
      by_cases h0 : (s.authorCount == 0) = true
      · rw [if_pos h0]
      · rw [if_neg h0]; exact h
  | postSaveBackup c st =>
    simp only [applyUserEvent, handle_user_post_save]
    by_cases h1 : (c && !st) = true
    · rw [if_pos h1]
      by_cases h2 : (!s.inCommon) = true
      · rw [if_pos h2]
        by_cases h0 : (s.authorCount == 0) = true
        · simp [h0]
        · simp only [h0, Bool.false_eq_true, if_false]
          exact h
      · rw [if_neg h2]; exact h
    · rw [if_neg h1]; exact h
  | profileCreate c =>
    simp only [applyUserEvent, create_author_profile]
    by_cases h1 : (c && s.authorCount == 0) = true
    · rw [if_pos h1]
      have h0 : s.authorCount = 0 := by
        simp only [Bool.and_eq_true, beq_iff_eq] at h1
        exact h1.2
      simp [h0]
    · rw [if_neg h1]; exact h

/-- Claim C9: every user-creation path preserves the 1:1 User–AuthorProfile
invariant — starting from at most one Author row for the user, any sequence
of the sign-up handler, the backup `post_save` handler, and the
profile-creation handler (with any guard inputs) leaves at most one Author
row. -/
theorem c9_theorem : ∀ (es : List UserEvent) (s : UserState),
    s.authorCount ≤ 1 → (runUserEvents s es).authorCount ≤ 1 := by
  intro es
  induction es with
  | nil => intro s h; exact h
  | cons e rest ih =>
    intro s h
    have hstep : runUserEvents s (e :: rest)
        = runUserEvents (applyUserEvent s e) rest := rfl
    rw [hstep]
    exact ih _ (applyUserEvent_authorCount_le s e h)

/-- Claim C9, witness: a fresh user (no Author row, not in `common`) run
through all three handlers in sequence still has at most one Author row. -/
theorem c9_witness :
    (runUserEvents ⟨0, false⟩
        [UserEvent.postSaveBackup true false, UserEvent.profileCreate true,
          UserEvent.signedUp false false]).authorCount ≤ 1 :=
  c9_theorem
    [UserEvent.postSaveBackup true false, UserEvent.profileCreate true,
      UserEvent.signedUp false false] ⟨0, false⟩ (by decide)

/-- Claim C10: a social-account sign-up unconditionally activates the
user's ActivationToken and saves it; the save runs the activation-token
handler synchronously with `created=False` and `activated=True`, so one
activation-success email is sent immediately, the user ends up in the
`authors` group (the group-add call happening only if they were not already
a member), and no activation link was ever involved. -/
theorem c10_theorem : ∀ s : ActState,
    handle_social_signup false s
      = Except.ok
          { tokenActivated := true,
            afterSave :=
              { inAuthors := true,
                emails := s.emails + 1,
                grants := if s.inAuthors then s.grants else s.grants + 1,
                errorsLogged := s.errorsLogged } } := by
  intro s
  rfl

end Signals
